import Mathlib

set_option maxRecDepth 10000

/-!
Shallow embedding of the go-tcap TCAP codec (package tcap).

Bytes are modelled as Nat; every narrowing conversion in the Go source
(uint8 casts) appears as an explicit % 256.  Buffers mutated in place by
the Go MarshalTo methods are modelled by explicit state passing: a
function takes the destination buffer as a list and returns the updated
list.  Go run-time panics (nil dereference, slice bounds out of range)
are modelled by the distinguished error value GoErr.panicked, Go error
returns by the other GoErr constructors.
-/

instance {ε α : Type} [DecidableEq ε] [DecidableEq α] : DecidableEq (Except ε α) := fun a b =>
  match a, b with
  | .ok x, .ok y =>
    if h : x = y then isTrue (by rw [h]) else isFalse (by simp [h])
  | .error x, .error y =>
    if h : x = y then isTrue (by rw [h]) else isFalse (by simp [h])
  | .ok _, .error _ => isFalse (by simp)
  | .error _, .ok _ => isFalse (by simp)

/-- Error outcomes of the Go code: returned errors and run-time panics. -/
inductive GoErr where
  | errUnexpectedEOF : GoErr
  | invalidCode : Nat → GoErr
  | lengthMismatch : Nat → Nat → GoErr
  | panicked : GoErr
deriving DecidableEq, Repr

/-- The byte store b[i] = v of the Go code; v is narrowed to a byte. -/
def store (b : List Nat) (i v : Nat) : List Nat :=
  b.set i (v % 256)

/-- The Go slice expression b[lo:hi] (in-range case). -/
def sliceGo (b : List Nat) (lo hi : Nat) : List Nat :=
  (b.take hi).drop lo

/-- The Go builtin copy(dst, src): overwrites the first min(len dst, len src)
entries of dst with those of src and keeps the rest of dst. -/
def copyGo (dst src : List Nat) : List Nat :=
  src.take dst.length ++ dst.drop src.length

/-- Runs the marshaller f on the sub-buffer b[off:off+k] and splices the
result back, as Go does when a MarshalTo method receives an interior slice.
A slice whose upper bound passes the end of b is a Go panic. -/
def writeSub (b : List Nat) (off k : Nat)
    (f : List Nat → Except GoErr (List Nat)) : Except GoErr (List Nat) :=
  if b.length < off + k then .error .panicked
  else
    match f (sliceGo b off (off + k)) with
    | .error e => .error e
    | .ok s => .ok (b.take off ++ s ++ b.drop (off + k))

/-- The binary.BigEndian.PutUint32 byte image of v. -/
def putUint32 (v : Nat) : List Nat :=
  [v >>> 24 % 256, v >>> 16 % 256, v >>> 8 % 256, v % 256]

/-- The binary.BigEndian.Uint32 read of the first four bytes. -/
def beUint32 (b : List Nat) : Nat :=
  b.getD 0 0 * 16777216 + b.getD 1 0 * 65536 + b.getD 2 0 * 256 + b.getD 3 0

/-- asn1length.go handleMarshalLen: header size 3 for long-form lengths,
2 otherwise, added to len. elementLength is a uint8 in the source. -/
def handleMarshalLen (elementLength len : Nat) : Nat :=
  if 127 < elementLength % 256 then len + 3 else len + 2

/-- asn1length.go readLength: reads the length field that follows the tag
byte. A read past the end of the buffer yields 0 (the bytes.Reader error is
ignored in the source). In the long-form fold the Go expression
byte(length) << 8 is uint8 arithmetic, hence the % 256 after the shift. -/
def readLength (b : List Nat) : Nat × Nat :=
  let lengthByte := b.getD 1 0
  if lengthByte &&& 128 = 0 then (lengthByte % 256, 2)
  else
    let lengthByte := lengthByte &&& 127
    if lengthByte = 0 then (0, 2)
    else
      let length := (List.range lengthByte).foldl
        (fun length i => (((length % 256) <<< 8) % 256) ||| (255 &&& b.getD (2 + i) 0)) 0
      (length % 256, 3)

/-- asn1length.go writeLength: writes the length field into b starting at
index 1 and returns the offset of the first value byte. length is a uint8
in the source, so after the subtraction by 1 only the one-octet branch of
the count computation is reachable; the other branches are kept verbatim. -/
def writeLength (b : List Nat) (length : Nat) : List Nat × Nat :=
  let length := length % 256
  if length ≤ 127 then (store b 1 length, 2)
  else
    let length := length - 1
    let bufcount : List Nat × Nat :=
      if length &&& 0xff000000 ≠ 0 then
        ([length >>> 24 &&& 255, length >>> 16 &&& 255, length >>> 8 &&& 255, length &&& 255], 4)
      else if length &&& 0xff0000 ≠ 0 then
        ([length >>> 16 &&& 255, length >>> 8 &&& 255, length &&& 255], 3)
      else if length &&& 0xff00 ≠ 0 then
        ([length >>> 8 &&& 255, length &&& 255], 2)
      else ([length &&& 255], 1)
    let b := store b 1 (128 ||| bufcount.2)
    let b := (List.range bufcount.2).foldl
      (fun acc i => store acc (2 + i) (bufcount.1.getD i 0)) b
    (b, 2 + bufcount.2)

/-- ie.go class constants. -/
def Universal : Nat := 0

/-- ApplicationWide class. -/
def ApplicationWide : Nat := 1

/-- ContextSpecific class. -/
def ContextSpecific : Nat := 2

/-- Private class. -/
def Private : Nat := 3

/-- Primitive form. -/
def Primitive : Nat := 0

/-- Constructor form. -/
def Constructor : Nat := 1

/-- ie.go NewTag: packs class, form and code into one tag byte. -/
def NewTag (cls form code : Nat) : Nat :=
  ((cls <<< 6) ||| (form <<< 5) ||| code) % 256

/-- ie.go NewUniversalPrimitiveTag. -/
def NewUniversalPrimitiveTag (code : Nat) : Nat :=
  NewTag Universal Primitive code

/-- ie.go NewUniversalConstructorTag. -/
def NewUniversalConstructorTag (code : Nat) : Nat :=
  NewTag Universal Constructor code

/-- ie.go NewApplicationWidePrimitiveTag. -/
def NewApplicationWidePrimitiveTag (code : Nat) : Nat :=
  NewTag ApplicationWide Primitive code

/-- ie.go NewApplicationWideConstructorTag. -/
def NewApplicationWideConstructorTag (code : Nat) : Nat :=
  NewTag ApplicationWide Constructor code

/-- ie.go NewContextSpecificPrimitiveTag. -/
def NewContextSpecificPrimitiveTag (code : Nat) : Nat :=
  NewTag ContextSpecific Primitive code

/-- ie.go NewContextSpecificConstructorTag. -/
def NewContextSpecificConstructorTag (code : Nat) : Nat :=
  NewTag ContextSpecific Constructor code

/-- ie.go Tag.Class accessor. -/
def Tag.Class (t : Nat) : Nat :=
  (t >>> 6) &&& 0x3

/-- ie.go Tag.Form accessor. -/
def Tag.Form (t : Nat) : Nat :=
  (t >>> 5) &&& 0x1

/-- ie.go Tag.Code accessor. -/
def Tag.Code (t : Nat) : Nat :=
  t &&& 0x1f

/-- ie.go IE: a flat TLV node. The child-IE list of the Go struct is used
only by the recursive BER parser (ParseAsBER), which never feeds the codec
paths modelled here; in every value built by the constructors or by
UnmarshalBinary it is nil, so it is omitted. The nil byte slice of Go is
identified with the empty list (no modelled operation distinguishes them). -/
structure IE where
  Tag : Nat
  Length : Nat
  Value : List Nat
deriving DecidableEq, Repr

/-- ie.go IE.MarshalLen. -/
def IE.MarshalLen (i : IE) : Nat :=
  if i.Value.length > 0 then handleMarshalLen (i.Value.length % 256) i.Value.length
  else handleMarshalLen (i.Length % 256) i.Value.length

/-- ie.go IE.SetLength. -/
def IE.SetLength (i : IE) : IE :=
  { i with Length := i.Value.length % 256 }

/-- ie.go NewIE. -/
def NewIE (tag : Nat) (value : List Nat) : IE :=
  IE.SetLength { Tag := tag, Length := 0, Value := value }

/-- ie.go IE.MarshalTo: writes the tag, the length field and the value into
the destination buffer. The copy target slice b[offset:MarshalLen] panics in
Go when MarshalLen exceeds the buffer or is below offset. -/
def IE.MarshalTo (i : IE) (b : List Nat) : Except GoErr (List Nat) :=
  if b.length < 2 then .error .errUnexpectedEOF
  else
    let b := store b 0 i.Tag
    let wl := writeLength b i.Length
    let b := wl.1
    let offset := wl.2
    if i.Value.length > 0 then
      if b.length < i.MarshalLen ∨ i.MarshalLen < offset then .error .panicked
      else .ok (b.take offset ++ copyGo (sliceGo b offset i.MarshalLen) i.Value ++ b.drop i.MarshalLen)
    else .ok b

/-- ie.go IE.MarshalBinary: allocates a zeroed buffer of MarshalLen bytes
and marshals into it. -/
def IE.MarshalBinary (i : IE) : Except GoErr (List Nat) :=
  i.MarshalTo (List.replicate i.MarshalLen 0)

/-- ie.go IE.UnmarshalBinary. -/
def IE.UnmarshalBinary (b : List Nat) : Except GoErr IE :=
  if b.length < 3 then .error .errUnexpectedEOF
  else
    let rl := readLength b
    let length := rl.1
    let offset := rl.2
    if b.length < offset + length then .error .errUnexpectedEOF
    else .ok { Tag := b.getD 0 0, Length := length, Value := sliceGo b offset (offset + length) }

/-- ie.go ParseIE. -/
def ParseIE (b : List Nat) : Except GoErr IE :=
  IE.UnmarshalBinary b

/-- transaction.go message type Unidirectional. -/
def Unidirectional : Nat := 1

/-- Begin message type. -/
def Begin : Nat := 2

/-- End message type. -/
def End : Nat := 4

/-- Continue message type. -/
def Continue : Nat := 5

/-- Abort message type. -/
def Abort : Nat := 7

/-- transaction.go Transaction. The Go Type field is spelled Typ because
Type is reserved in Lean; the three optional IE pointers become Option. -/
structure Transaction where
  Typ : Nat
  Length : Nat
  OrigTransactionID : Option IE := none
  DestTransactionID : Option IE := none
  PAbortCause : Option IE := none
  Payload : List Nat := []
deriving DecidableEq, Repr

/-- transaction.go Transaction.MarshalLen. -/
def Transaction.MarshalLen (t : Transaction) : Nat :=
  let l : Nat := 2
  let code := Tag.Code t.Typ
  let l :=
    if code = Unidirectional then l
    else if code = Begin then
      l + (match t.OrigTransactionID with | some f => f.MarshalLen | none => 0)
    else if code = End then
      l + (match t.DestTransactionID with | some f => f.MarshalLen | none => 0)
    else if code = Continue then
      l + (match t.OrigTransactionID with | some f => f.MarshalLen | none => 0)
        + (match t.DestTransactionID with | some f => f.MarshalLen | none => 0)
    else if code = Abort then
      l + (match t.DestTransactionID with | some f => f.MarshalLen | none => 0)
        + (match t.PAbortCause with | some f => f.MarshalLen | none => 0)
    else l
  l + t.Payload.length

/-- transaction.go Transaction.SetLength. -/
def Transaction.SetLength (t : Transaction) : Transaction :=
  let t := { t with OrigTransactionID := t.OrigTransactionID.map IE.SetLength }
  let t := { t with DestTransactionID := t.DestTransactionID.map IE.SetLength }
  let t := { t with PAbortCause := t.PAbortCause.map IE.SetLength }
  { t with Length := (t.MarshalLen - 2) % 256 }

/-- transaction.go NewTransaction. -/
def NewTransaction (mtype otid dtid cause : Nat) (payload : List Nat) : Transaction :=
  Transaction.SetLength
    { Typ := NewApplicationWideConstructorTag mtype
      Length := 0
      OrigTransactionID := some { Tag := NewApplicationWidePrimitiveTag 8, Length := 0, Value := putUint32 otid }
      DestTransactionID := some { Tag := NewApplicationWidePrimitiveTag 9, Length := 0, Value := putUint32 dtid }
      PAbortCause := some { Tag := NewApplicationWidePrimitiveTag 10, Length := 0, Value := [cause % 256] }
      Payload := payload }

/-- transaction.go NewUnidirectional: builds via NewTransaction and then
clears all three optional fields (the Length computed before the clearing
is kept, exactly as in the source). -/
def NewUnidirectional (payload : List Nat) : Transaction :=
  let t := NewTransaction Unidirectional 0 0 0 payload
  { t with OrigTransactionID := none, DestTransactionID := none, PAbortCause := none }

/-- transaction.go NewBegin. -/
def NewBegin (otid : Nat) (payload : List Nat) : Transaction :=
  Transaction.SetLength
    { Typ := NewApplicationWideConstructorTag Begin
      Length := 0
      OrigTransactionID := some { Tag := NewApplicationWidePrimitiveTag 8, Length := 0, Value := putUint32 otid }
      Payload := payload }

/-- transaction.go NewEnd. -/
def NewEnd (otid : Nat) (payload : List Nat) : Transaction :=
  Transaction.SetLength
    { Typ := NewApplicationWideConstructorTag End
      Length := 0
      DestTransactionID := some { Tag := NewApplicationWidePrimitiveTag 9, Length := 0, Value := putUint32 otid }
      Payload := payload }

/-- transaction.go NewContinue. -/
def NewContinue (otid dtid : Nat) (payload : List Nat) : Transaction :=
  let t := NewTransaction Continue otid dtid 0 payload
  { t with PAbortCause := none }

/-- transaction.go NewAbort. -/
def NewAbort (dtid cause : Nat) (payload : List Nat) : Transaction :=
  let t := NewTransaction Abort 0 dtid cause payload
  { t with OrigTransactionID := none }

/-- transaction.go Transaction.MarshalTo: writes type and length, then the
fields selected by the message type, then the payload. b[0] and b[1] are
written without a bounds check in the source, so a buffer below 2 bytes is
a panic; so is a payload copy region passing the end of the buffer. -/
def Transaction.MarshalTo (t : Transaction) (b : List Nat) : Except GoErr (List Nat) :=
  if b.length < 2 then .error .panicked
  else
    let b := store b 0 t.Typ
    let b := store b 1 t.Length
    let code := Tag.Code t.Typ
    let step : List Nat × Nat → Option IE → Except GoErr (List Nat × Nat) := fun bo f =>
      match f with
      | none => .ok bo
      | some f =>
        match writeSub bo.1 bo.2 f.MarshalLen f.MarshalTo with
        | .error e => .error e
        | .ok b2 => .ok (b2, bo.2 + f.MarshalLen)
    let fields : Except GoErr (List Nat × Nat) :=
      if code = Unidirectional then .ok (b, 2)
      else if code = Begin then step (b, 2) t.OrigTransactionID
      else if code = End then step (b, 2) t.DestTransactionID
      else if code = Continue then
        match step (b, 2) t.OrigTransactionID with
        | .error e => .error e
        | .ok bo => step bo t.DestTransactionID
      else if code = Abort then
        match step (b, 2) t.DestTransactionID with
        | .error e => .error e
        | .ok bo => step bo t.PAbortCause
      else .ok (b, 2)
    match fields with
    | .error e => .error e
    | .ok (b, offset) =>
      if b.length < t.MarshalLen ∨ t.MarshalLen < offset then .error .panicked
      else .ok (b.take offset ++ copyGo (sliceGo b offset t.MarshalLen) t.Payload ++ b.drop t.MarshalLen)

/-- transaction.go Transaction.MarshalBinary. -/
def Transaction.MarshalBinary (t : Transaction) : Except GoErr (List Nat) :=
  t.MarshalTo (List.replicate t.MarshalLen 0)

/-- transaction.go Transaction.UnmarshalBinary: reads type and length, then
the fields mandated by the message type from fixed-width slices (b[2:8] for
a transaction id, three bytes for the abort cause), then takes the rest as
payload. Out-of-range fixed slices are Go panics. -/
def Transaction.UnmarshalBinary (b : List Nat) : Except GoErr Transaction :=
  if b.length < 2 then .error .panicked
  else
    let typ := b.getD 0 0
    let len := b.getD 1 0
    let code := Tag.Code typ
    if code = Unidirectional then
      .ok { Typ := typ, Length := len, Payload := b.drop 2 }
    else if code = Begin then
      if b.length < 8 then .error .panicked
      else
        match ParseIE (sliceGo b 2 8) with
        | .error e => .error e
        | .ok otid =>
          .ok { Typ := typ, Length := len, OrigTransactionID := some otid
                Payload := b.drop (2 + otid.MarshalLen) }
    else if code = End then
      if b.length < 8 then .error .panicked
      else
        match ParseIE (sliceGo b 2 8) with
        | .error e => .error e
        | .ok dtid =>
          .ok { Typ := typ, Length := len, DestTransactionID := some dtid
                Payload := b.drop (2 + dtid.MarshalLen) }
    else if code = Continue then
      if b.length < 8 then .error .panicked
      else
        match ParseIE (sliceGo b 2 8) with
        | .error e => .error e
        | .ok otid =>
          let offset := 2 + otid.MarshalLen
          if b.length < offset + 6 then .error .panicked
          else
            match ParseIE (sliceGo b offset (offset + 6)) with
            | .error e => .error e
            | .ok dtid =>
              .ok { Typ := typ, Length := len, OrigTransactionID := some otid
                    DestTransactionID := some dtid
                    Payload := b.drop (offset + dtid.MarshalLen) }
    else if code = Abort then
      if b.length < 8 then .error .panicked
      else
        match ParseIE (sliceGo b 2 8) with
        | .error e => .error e
        | .ok dtid =>
          let offset := 2 + dtid.MarshalLen
          if b.length < offset + 3 then .error .panicked
          else
            match ParseIE (sliceGo b offset (offset + 3)) with
            | .error e => .error e
            | .ok cause =>
              .ok { Typ := typ, Length := len, DestTransactionID := some dtid
                    PAbortCause := some cause
                    Payload := b.drop (offset + cause.MarshalLen) }
    else
      .ok { Typ := typ, Length := len, Payload := b.drop 2 }

/-- transaction.go ParseTransaction. -/
def ParseTransaction (b : List Nat) : Except GoErr Transaction :=
  Transaction.UnmarshalBinary b

/-- dialogue-pdu.go code AARQ. -/
def AARQ : Nat := 0

/-- AARE code. -/
def AARE : Nat := 1

/-- ABRT code. -/
def ABRT : Nat := 2

/-- Application context LocationCancellationContext (dialogue-pdu.go). -/
def LocationCancellationContext : Nat := 2

/-- Application context AnyTimeInfoEnquiryContext (dialogue-pdu.go). -/
def AnyTimeInfoEnquiryContext : Nat := 29

/-- Result value Accepted. -/
def Accepted : Nat := 0

/-- Dialogue service diagnostic tag DialogueServiceUser. -/
def DialogueServiceUser : Nat := 1

/-- Dialogue service user diagnostic reason Null. -/
def Null : Nat := 0

/-- Dialogue object identifier DialogueAsID. -/
def DialogueAsID : Nat := 1

/-- Chains one optional IE field write at the running offset, as the Go
MarshalTo methods do field by field. -/
def writeIEField (bo : List Nat × Nat) (f : Option IE) : Except GoErr (List Nat × Nat) :=
  match f with
  | none => .ok bo
  | some f =>
    match writeSub bo.1 bo.2 f.MarshalLen f.MarshalTo with
    | .error e => .error e
    | .ok b2 => .ok (b2, bo.2 + f.MarshalLen)

/-- dialogue-pdu.go DialoguePDU; the Go Type field is spelled Typ. -/
structure DialoguePDU where
  Typ : Nat
  Length : Nat
  ProtocolVersion : Option IE := none
  ApplicationContextName : Option IE := none
  Result : Option IE := none
  ResultSourceDiagnostic : Option IE := none
  AbortSource : Option IE := none
  UserInformation : Option IE := none
deriving DecidableEq, Repr

/-- dialogue-pdu.go NewApplicationContextName (lengths hard-coded). -/
def NewApplicationContextName (ctx ver : Nat) : IE :=
  { Tag := NewContextSpecificConstructorTag 1, Length := 9
    Value := [0x06, 0x07, 4, 0, 0, 1, 0, ctx, ver] }

/-- dialogue-pdu.go NewResult. -/
def NewResult (res : Nat) : IE :=
  { Tag := NewContextSpecificConstructorTag 2, Length := 3, Value := [0x02, 0x01, res] }

/-- dialogue-pdu.go NewResultSourceDiagnostic. -/
def NewResultSourceDiagnostic (dtype reason : Nat) : IE :=
  { Tag := NewContextSpecificConstructorTag 3, Length := 5
    Value := [NewContextSpecificConstructorTag dtype, 0x03, 0x02, 0x01, reason] }

/-- dialogue-pdu.go DialoguePDU.MarshalLen. -/
def DialoguePDU.MarshalLen (d : DialoguePDU) : Nat :=
  let l : Nat := 2
  let code := Tag.Code d.Typ
  let l :=
    if code = AARQ then
      l + (match d.ProtocolVersion with | some f => f.MarshalLen | none => 0)
        + (match d.ApplicationContextName with | some f => f.MarshalLen | none => 0)
    else if code = AARE then
      l + (match d.ProtocolVersion with | some f => f.MarshalLen | none => 0)
        + (match d.ApplicationContextName with | some f => f.MarshalLen | none => 0)
        + (match d.Result with | some f => f.MarshalLen | none => 0)
        + (match d.ResultSourceDiagnostic with | some f => f.MarshalLen | none => 0)
    else if code = ABRT then
      l + (match d.AbortSource with | some f => f.MarshalLen | none => 0)
    else l
  l + (match d.UserInformation with | some f => f.MarshalLen | none => 0)

/-- dialogue-pdu.go DialoguePDU.SetLength. -/
def DialoguePDU.SetLength (d : DialoguePDU) : DialoguePDU :=
  let code := Tag.Code d.Typ
  let d :=
    if code = AARQ then
      { d with ProtocolVersion := d.ProtocolVersion.map IE.SetLength
               ApplicationContextName := d.ApplicationContextName.map IE.SetLength }
    else if code = AARE then
      { d with ProtocolVersion := d.ProtocolVersion.map IE.SetLength
               ApplicationContextName := d.ApplicationContextName.map IE.SetLength
               Result := d.Result.map IE.SetLength
               ResultSourceDiagnostic := d.ResultSourceDiagnostic.map IE.SetLength }
    else if code = ABRT then
      { d with AbortSource := d.AbortSource.map IE.SetLength }
    else d
  let d := { d with UserInformation := d.UserInformation.map IE.SetLength }
  { d with Length := (d.MarshalLen - 2) % 256 }

/-- dialogue-pdu.go NewAARQ; the variadic userinfo parameter becomes a list,
of which only the head is used, as in the source. -/
def NewAARQ (protover ctx ctxver : Nat) (userinfo : List IE := []) : DialoguePDU :=
  let d : DialoguePDU :=
    { Typ := NewApplicationWideConstructorTag AARQ
      Length := 0
      ProtocolVersion := some { Tag := NewContextSpecificPrimitiveTag 0, Length := 0
                                Value := [0x07, (protover <<< 7) % 256] }
      ApplicationContextName := some (NewApplicationContextName ctx ctxver) }
  let d :=
    if userinfo.length > 0 then
      { d with UserInformation := some (IE.SetLength
          { Tag := NewContextSpecificConstructorTag 30, Length := 0
            Value := (userinfo.headD { Tag := 0, Length := 0, Value := [] }).Value }) }
    else d
  DialoguePDU.SetLength d

/-- dialogue-pdu.go NewAARE. -/
def NewAARE (protover ctx ctxver result diagsrc reason : Nat) (userinfo : List IE := []) : DialoguePDU :=
  let d : DialoguePDU :=
    { Typ := NewApplicationWideConstructorTag AARE
      Length := 0
      ProtocolVersion := some { Tag := NewContextSpecificPrimitiveTag 0, Length := 0
                                Value := [0x07, (protover <<< 7) % 256] }
      ApplicationContextName := some (NewApplicationContextName ctx ctxver)
      Result := some (NewResult result)
      ResultSourceDiagnostic := some (NewResultSourceDiagnostic diagsrc reason) }
  let d :=
    if userinfo.length > 0 then
      { d with UserInformation := some (IE.SetLength
          { Tag := NewContextSpecificConstructorTag 30, Length := 0
            Value := (userinfo.headD { Tag := 0, Length := 0, Value := [] }).Value }) }
    else d
  DialoguePDU.SetLength d

/-- dialogue-pdu.go NewABRT. -/
def NewABRT (abortsrc : Nat) (userinfo : List IE := []) : DialoguePDU :=
  let d : DialoguePDU :=
    { Typ := NewApplicationWideConstructorTag ABRT
      Length := 0
      AbortSource := some { Tag := NewContextSpecificPrimitiveTag 0, Length := 1
                            Value := [abortsrc] } }
  let d :=
    if userinfo.length > 0 then
      { d with UserInformation := some (IE.SetLength
          { Tag := NewContextSpecificConstructorTag 30, Length := 0
            Value := (userinfo.headD { Tag := 0, Length := 0, Value := [] }).Value }) }
    else d
  DialoguePDU.SetLength d

/-- dialogue-pdu.go marshalAARQTo. -/
def DialoguePDU.marshalAARQTo (d : DialoguePDU) (b : List Nat) : Except GoErr (List Nat) := do
  let bo ← writeIEField (b, 2) d.ProtocolVersion
  let bo ← writeIEField bo d.ApplicationContextName
  let bo ← writeIEField bo d.UserInformation
  return bo.1

/-- dialogue-pdu.go marshalAARETo. -/
def DialoguePDU.marshalAARETo (d : DialoguePDU) (b : List Nat) : Except GoErr (List Nat) := do
  let bo ← writeIEField (b, 2) d.ProtocolVersion
  let bo ← writeIEField bo d.ApplicationContextName
  let bo ← writeIEField bo d.Result
  let bo ← writeIEField bo d.ResultSourceDiagnostic
  let bo ← writeIEField bo d.UserInformation
  return bo.1

/-- dialogue-pdu.go marshalABRTTo. -/
def DialoguePDU.marshalABRTTo (d : DialoguePDU) (b : List Nat) : Except GoErr (List Nat) := do
  let bo ← writeIEField (b, 2) d.AbortSource
  let bo ← writeIEField bo d.UserInformation
  return bo.1

/-- dialogue-pdu.go DialoguePDU.MarshalTo: writes type and length, then
dispatches on the type code; unknown codes yield an InvalidCodeError. -/
def DialoguePDU.MarshalTo (d : DialoguePDU) (b : List Nat) : Except GoErr (List Nat) :=
  if b.length < 2 then .error .errUnexpectedEOF
  else
    let b := store b 0 d.Typ
    let b := store b 1 d.Length
    let code := Tag.Code d.Typ
    if code = AARQ then d.marshalAARQTo b
    else if code = AARE then d.marshalAARETo b
    else if code = ABRT then d.marshalABRTTo b
    else .error (.invalidCode code)

/-- dialogue-pdu.go DialoguePDU.MarshalBinary. -/
def DialoguePDU.MarshalBinary (d : DialoguePDU) : Except GoErr (List Nat) :=
  d.MarshalTo (List.replicate d.MarshalLen 0)

/-- dialogue-pdu.go parseAARQFromBytes. -/
def DialoguePDU.parseAARQFromBytes (typ len : Nat) (b : List Nat) : Except GoErr DialoguePDU := do
  let pv ← ParseIE (b.drop 2)
  let offset := 2 + pv.MarshalLen
  let acn ← ParseIE (b.drop offset)
  let offset := offset + acn.MarshalLen
  let d : DialoguePDU :=
    { Typ := typ, Length := len, ProtocolVersion := some pv, ApplicationContextName := some acn }
  if offset + 1 < b.length then
    if b.getD offset 0 = NewContextSpecificConstructorTag 30 then do
      let ui ← ParseIE (b.drop offset)
      return { d with UserInformation := some ui }
    else return d
  else return d

/-- dialogue-pdu.go parseAAREFromBytes. -/
def DialoguePDU.parseAAREFromBytes (typ len : Nat) (b : List Nat) : Except GoErr DialoguePDU := do
  let pv ← ParseIE (b.drop 2)
  let offset := 2 + pv.MarshalLen
  let acn ← ParseIE (b.drop offset)
  let offset := offset + acn.MarshalLen
  let res ← ParseIE (b.drop offset)
  let offset := offset + res.MarshalLen
  let diag ← ParseIE (b.drop offset)
  let offset := offset + diag.MarshalLen
  let d : DialoguePDU :=
    { Typ := typ, Length := len, ProtocolVersion := some pv, ApplicationContextName := some acn
      Result := some res, ResultSourceDiagnostic := some diag }
  if offset + 1 < b.length then
    if b.getD offset 0 = NewContextSpecificConstructorTag 30 then do
      let ui ← ParseIE (b.drop offset)
      return { d with UserInformation := some ui }
    else return d
  else return d

/-- dialogue-pdu.go parseABRTFromBytes. -/
def DialoguePDU.parseABRTFromBytes (typ len : Nat) (b : List Nat) : Except GoErr DialoguePDU := do
  let src ← ParseIE (b.drop 2)
  let offset := 2 + src.MarshalLen
  let d : DialoguePDU := { Typ := typ, Length := len, AbortSource := some src }
  if offset + 1 < b.length then
    if b.getD offset 0 = NewContextSpecificConstructorTag 30 then do
      let ui ← ParseIE (b.drop offset)
      return { d with UserInformation := some ui }
    else return d
  else return d

/-- dialogue-pdu.go DialoguePDU.UnmarshalBinary. -/
def DialoguePDU.UnmarshalBinary (b : List Nat) : Except GoErr DialoguePDU :=
  if b.length < 4 then .error .errUnexpectedEOF
  else
    let typ := b.getD 0 0
    let len := b.getD 1 0
    let code := Tag.Code typ
    if code = AARQ then DialoguePDU.parseAARQFromBytes typ len b
    else if code = AARE then DialoguePDU.parseAAREFromBytes typ len b
    else if code = ABRT then DialoguePDU.parseABRTFromBytes typ len b
    else .error (.invalidCode code)

/-- dialogue-pdu.go ParseDialoguePDU. -/
def ParseDialoguePDU (b : List Nat) : Except GoErr DialoguePDU :=
  DialoguePDU.UnmarshalBinary b

/-- dialogue.go Dialogue. -/
structure Dialogue where
  Tag : Nat
  Length : Nat
  ExternalTag : Nat
  ExternalLength : Nat
  ObjectIdentifier : Option IE := none
  SingleAsn1Type : Option IE := none
  DialoguePDU : Option DialoguePDU := none
  Payload : List Nat := []
deriving DecidableEq, Repr

/-- dialogue.go Dialogue.MarshalLen. -/
def Dialogue.MarshalLen (d : Dialogue) : Nat :=
  4 + (match d.ObjectIdentifier with | some f => f.MarshalLen | none => 0)
    + (match d.SingleAsn1Type with | some f => f.MarshalLen | none => 0)
    + (match d.DialoguePDU with | some f => f.MarshalLen | none => 0)
    + d.Payload.length

/-- dialogue.go Dialogue.SetLength. -/
def Dialogue.SetLength (d : Dialogue) : Dialogue :=
  let d := { d with Length := (d.MarshalLen - 2) % 256 }
  { d with ExternalLength := (d.MarshalLen - 4) % 256 }

/-- dialogue.go NewDialogue. -/
def NewDialogue (oid ver : Nat) (pdu : DialoguePDU) (payload : List Nat) : Dialogue :=
  Dialogue.SetLength
    { Tag := NewApplicationWideConstructorTag 11
      Length := 0
      ExternalTag := NewUniversalConstructorTag 8
      ExternalLength := 0
      ObjectIdentifier := some { Tag := NewUniversalPrimitiveTag 6, Length := 7
                                 Value := [0, 17, 134, 5, 1, oid, ver] }
      SingleAsn1Type := some { Tag := NewContextSpecificConstructorTag 0
                               Length := pdu.MarshalLen % 256, Value := [] }
      DialoguePDU := some pdu
      Payload := payload }

/-- dialogue.go Dialogue.MarshalTo: writes the two outer headers, the object
identifier, the wrapper IE, the serialized PDU and the trailing payload. -/
def Dialogue.MarshalTo (d : Dialogue) (b : List Nat) : Except GoErr (List Nat) :=
  if b.length < 4 then .error .errUnexpectedEOF
  else
    let b := store b 0 d.Tag
    let b := store b 1 d.Length
    let b := store b 2 d.ExternalTag
    let b := store b 3 d.ExternalLength
    match writeIEField (b, 4) d.ObjectIdentifier with
    | .error e => .error e
    | .ok bo =>
      match writeIEField bo d.SingleAsn1Type with
      | .error e => .error e
      | .ok bo =>
        let pduStep : Except GoErr (List Nat × Nat) :=
          match d.DialoguePDU with
          | none => .ok bo
          | some pdu =>
            match writeSub bo.1 bo.2 pdu.MarshalLen pdu.MarshalTo with
            | .error e => .error e
            | .ok b2 => .ok (b2, bo.2 + pdu.MarshalLen)
        match pduStep with
        | .error e => .error e
        | .ok bo =>
          if bo.1.length < bo.2 then .error .panicked
          else .ok (bo.1.take bo.2 ++ copyGo (bo.1.drop bo.2) d.Payload)

/-- dialogue.go Dialogue.MarshalBinary. -/
def Dialogue.MarshalBinary (d : Dialogue) : Except GoErr (List Nat) :=
  d.MarshalTo (List.replicate d.MarshalLen 0)

/-- dialogue.go Dialogue.UnmarshalBinary. -/
def Dialogue.UnmarshalBinary (b : List Nat) : Except GoErr Dialogue := do
  if b.length < 5 then throw .errUnexpectedEOF
  let oid ← ParseIE (b.drop 4)
  let offset := 4 + oid.MarshalLen
  let sat ← ParseIE (b.drop offset)
  let offset := offset + sat.MarshalLen
  let pdu ← ParseDialoguePDU sat.Value
  return { Tag := b.getD 0 0, Length := b.getD 1 0
           ExternalTag := b.getD 2 0, ExternalLength := b.getD 3 0
           ObjectIdentifier := some oid, SingleAsn1Type := some sat
           DialoguePDU := some pdu, Payload := b.drop offset }

/-- dialogue.go ParseDialogue. -/
def ParseDialogue (b : List Nat) : Except GoErr Dialogue :=
  Dialogue.UnmarshalBinary b

/-- component.go component type Invoke. -/
def Invoke : Nat := 1

/-- ReturnResultLast component type. -/
def ReturnResultLast : Nat := 2

/-- ReturnError component type. -/
def ReturnError : Nat := 3

/-- Reject component type. -/
def Reject : Nat := 4

/-- ReturnResultNotLast component type. -/
def ReturnResultNotLast : Nat := 7

/-- component.go Component; the Go Type field is spelled Typ. -/
structure Component where
  Typ : Nat
  Length : Nat
  InvokeID : Option IE := none
  LinkedID : Option IE := none
  ResultRetres : Option IE := none
  SequenceTag : Option IE := none
  OperationCode : Option IE := none
  ErrorCode : Option IE := none
  ProblemCode : Option IE := none
  Parameter : Option IE := none
deriving DecidableEq, Repr

/-- component.go Components (header plus component list). -/
structure Components where
  Tag : Nat
  Length : Nat
  Component : List Component := []
deriving DecidableEq, Repr

/-- component.go Component.MarshalLen. The Go method dereferences
c.InvokeID unconditionally (a nil InvokeID panics); no value built by the
constructors or the parser has a nil InvokeID, and the none branch here
contributes 0. -/
def Component.MarshalLen (c : Component) : Nat :=
  let l := 2 + (match c.InvokeID with | some f => f.MarshalLen | none => 0)
  let code := Tag.Code c.Typ
  if code = Invoke then
    l + (match c.LinkedID with | some f => f.MarshalLen | none => 0)
      + (match c.OperationCode with | some f => f.MarshalLen | none => 0)
      + (match c.Parameter with | some f => f.MarshalLen | none => 0)
  else if code = ReturnResultLast ∨ code = ReturnResultNotLast then
    l + (match c.ResultRetres with | some f => f.MarshalLen | none => 0)
      + (match c.OperationCode with | some f => f.MarshalLen | none => 0)
      + (match c.Parameter with | some f => f.MarshalLen | none => 0)
  else if code = ReturnError then
    l + (match c.ErrorCode with | some f => f.MarshalLen | none => 0)
      + (match c.Parameter with | some f => f.MarshalLen | none => 0)
  else if code = Reject then
    l + (match c.ProblemCode with | some f => f.MarshalLen | none => 0)
  else l

/-- component.go Components.MarshalLen. -/
def Components.MarshalLen (c : Components) : Nat :=
  c.Component.foldl (fun l comp => l + comp.MarshalLen) 2

/-- component.go Component.SetLength: sets the lengths of the present
fields, accumulates the sizes that make up the ReturnResult wrapper length,
and recomputes the component length. -/
def Component.SetLength (c : Component) : Component :=
  let c := { c with InvokeID := c.InvokeID.map IE.SetLength }
  let c := { c with LinkedID := c.LinkedID.map IE.SetLength }
  let c := { c with OperationCode := c.OperationCode.map IE.SetLength }
  let c := { c with ErrorCode := c.ErrorCode.map IE.SetLength }
  let c := { c with Parameter := c.Parameter.map IE.SetLength }
  let c := { c with ProblemCode := c.ProblemCode.map IE.SetLength }
  let c := { c with SequenceTag := c.SequenceTag.map IE.SetLength }
  let l := (match c.OperationCode with | some f => f.MarshalLen | none => 0)
    + (match c.ErrorCode with | some f => f.MarshalLen | none => 0)
    + (match c.Parameter with | some f => f.MarshalLen | none => 0)
    + (match c.ProblemCode with | some f => f.MarshalLen | none => 0)
    + (match c.SequenceTag with | some f => f.MarshalLen | none => 0)
  let c :=
    match c.ResultRetres with
    | some f => { c with ResultRetres := some { f with Length := l % 256 } }
    | none => c
  { c with Length := (c.MarshalLen - 2) % 256 }

/-- component.go Components.SetLength: byte-wrapping running sum of the
component sizes. -/
def Components.SetLength (c : Components) : Components :=
  let comps := c.Component.map Component.SetLength
  { c with Component := comps
           Length := comps.foldl (fun acc comp => (acc + comp.MarshalLen % 256) % 256) 0 }

/-- component.go NewComponents. -/
def NewComponents (comps : List Component) : Components :=
  Components.SetLength { Tag := NewApplicationWideConstructorTag 12, Component := comps, Length := 0 }

/-- component.go NewOperationCode. -/
def NewOperationCode (code : Nat) (isLocal : Bool) : IE :=
  { Tag := NewUniversalPrimitiveTag (if isLocal then 2 else 4), Length := 1, Value := [code % 256] }

/-- component.go NewErrorCode. -/
def NewErrorCode (code : Nat) (isLocal : Bool) : IE :=
  NewOperationCode code isLocal

/-- component.go NewInvoke; lkID is an int in the source and only a
positive value produces a LinkedID. -/
def NewInvoke (invID : Nat) (lkID : Int) (opCode : Nat) (isLocal : Bool) (param : List Nat) : Component :=
  let c : Component :=
    { Typ := NewContextSpecificConstructorTag Invoke
      Length := 0
      InvokeID := some { Tag := NewUniversalPrimitiveTag 2, Length := 1, Value := [invID % 256] }
      OperationCode := some (NewOperationCode opCode isLocal)
      Parameter := some { Tag := NewUniversalConstructorTag 0x10, Length := 0, Value := param } }
  let c :=
    if 0 < lkID then
      { c with LinkedID := some { Tag := NewContextSpecificPrimitiveTag 0, Length := 1
                                  Value := [(lkID % 256).toNat] } }
    else c
  Component.SetLength c

/-- component.go NewReturnResult. -/
def NewReturnResult (invID opCode : Nat) (isLocal isLast : Bool) (param : List Nat) : Component :=
  let tag := if isLast then ReturnResultLast else ReturnResultNotLast
  Component.SetLength
    { Typ := NewContextSpecificConstructorTag tag
      Length := 0
      ResultRetres := some { Tag := NewUniversalConstructorTag 0x10, Length := 0, Value := [] }
      InvokeID := some { Tag := NewUniversalPrimitiveTag 2, Length := 1, Value := [invID % 256] }
      OperationCode := some (NewOperationCode opCode isLocal)
      Parameter := some { Tag := NewUniversalConstructorTag 0x10, Length := 0, Value := param } }

/-- component.go NewReturnError. -/
def NewReturnError (invID errCode : Nat) (isLocal : Bool) (param : List Nat) : Component :=
  Component.SetLength
    { Typ := NewContextSpecificConstructorTag ReturnError
      Length := 0
      InvokeID := some { Tag := NewUniversalPrimitiveTag 2, Length := 1, Value := [invID % 256] }
      ErrorCode := some (NewErrorCode errCode isLocal)
      Parameter := some { Tag := NewUniversalConstructorTag 0x10, Length := 0, Value := param } }

/-- component.go NewReject: note the type tag is built from the Invoke code,
not the Reject code, and the param argument is unused in the source. -/
def NewReject (invID problemType problemCode : Nat) (param : List Nat) : Component :=
  Component.SetLength
    { Typ := NewContextSpecificConstructorTag Invoke
      Length := 0
      InvokeID := some { Tag := NewUniversalPrimitiveTag 2, Length := 1, Value := [invID % 256] }
      ProblemCode := some { Tag := NewContextSpecificPrimitiveTag problemType, Length := 1
                            Value := [problemCode] } }

/-- component.go Component.MarshalTo: writes type and length, the invoke id
(whose nil dereference in Go is a panic), then the fields of the component
kind at the running offset. -/
def Component.MarshalTo (c : Component) (b : List Nat) : Except GoErr (List Nat) :=
  if b.length < 2 then .error .panicked
  else
    let b := store b 0 c.Typ
    let b := store b 1 c.Length
    match c.InvokeID with
    | none => .error .panicked
    | some inv =>
      match writeSub b 2 inv.MarshalLen inv.MarshalTo with
      | .error e => .error e
      | .ok b =>
        let bo := (b, 2 + inv.MarshalLen)
        let code := Tag.Code c.Typ
        let rest : Except GoErr (List Nat × Nat) :=
          if code = Invoke then do
            let bo ← writeIEField bo c.LinkedID
            let bo ← writeIEField bo c.OperationCode
            writeIEField bo c.Parameter
          else if code = ReturnResultLast ∨ code = ReturnResultNotLast then do
            let bo ← writeIEField bo c.ResultRetres
            let bo ← writeIEField bo c.OperationCode
            writeIEField bo c.Parameter
          else if code = ReturnError then do
            let bo ← writeIEField bo c.ErrorCode
            writeIEField bo c.Parameter
          else if code = Reject then
            writeIEField bo c.ProblemCode
          else .ok bo
        match rest with
        | .error e => .error e
        | .ok bo => .ok bo.1

/-- component.go Component.MarshalBinary. -/
def Component.MarshalBinary (c : Component) : Except GoErr (List Nat) :=
  c.MarshalTo (List.replicate c.MarshalLen 0)

/-- The component write loop of component.go Components.MarshalTo. -/
def componentsMarshalLoop (bo : List Nat × Nat) (comps : List Component) : Except GoErr (List Nat) :=
  match comps with
  | [] => .ok bo.1
  | comp :: rest =>
    match writeSub bo.1 bo.2 comp.MarshalLen comp.MarshalTo with
    | .error e => .error e
    | .ok b2 => componentsMarshalLoop (b2, bo.2 + comp.MarshalLen) rest

/-- component.go Components.MarshalTo. -/
def Components.MarshalTo (c : Components) (b : List Nat) : Except GoErr (List Nat) :=
  if b.length < 2 then .error .panicked
  else
    let b := store b 0 c.Tag
    let b := store b 1 c.Length
    componentsMarshalLoop (b, 2) c.Component

/-- component.go Components.MarshalBinary. -/
def Components.MarshalBinary (c : Components) : Except GoErr (List Nat) :=
  c.MarshalTo (List.replicate c.MarshalLen 0)

/-- component.go Component.UnmarshalBinary: reads type, length and the
invoke id, then the fields of the component kind; for the ReturnResult
kinds the remaining fields are re-read from inside the wrapper value. -/
def Component.UnmarshalBinary (b : List Nat) : Except GoErr Component :=
  if b.length < 2 then .error .errUnexpectedEOF
  else
    let typ := b.getD 0 0
    let len := b.getD 1 0
    match ParseIE (b.drop 2) with
    | .error e => .error e
    | .ok inv =>
      let offset := 2 + inv.MarshalLen
      let code := Tag.Code typ
      let c : Component := { Typ := typ, Length := len, InvokeID := some inv }
      if code = Invoke then do
        let op ← ParseIE (b.drop offset)
        let param ← ParseIE (b.drop (offset + op.MarshalLen))
        return { c with OperationCode := some op, Parameter := some param }
      else if code = ReturnResultLast ∨ code = ReturnResultNotLast then do
        let rr ← ParseIE (b.drop offset)
        let op ← ParseIE rr.Value
        let param ← ParseIE (rr.Value.drop op.MarshalLen)
        return { c with ResultRetres := some rr, OperationCode := some op, Parameter := some param }
      else if code = ReturnError then do
        let ec ← ParseIE (b.drop offset)
        let param ← ParseIE (b.drop (offset + ec.MarshalLen))
        return { c with ErrorCode := some ec, Parameter := some param }
      else if code = Reject then do
        let pc ← ParseIE (b.drop offset)
        return { c with ProblemCode := some pc }
      else return c

/-- component.go ParseComponent. -/
def ParseComponent (b : List Nat) : Except GoErr Component :=
  Component.UnmarshalBinary b

/-- The component loop of component.go Components.UnmarshalBinary: parses a
component at offset 2, stops when the remainder equals the declared
component length plus the header, otherwise reslices past the component
computed size and repeats. A reslice past the end of the buffer is a Go
panic. Returns the components collected so far with the error, if any,
because the partially filled receiver is observable through
ParseComponents. The fuel argument only bounds the iteration count so the
recursion is structural: every iteration either stops or consumes at least
two bytes of b, so any fuel above half the buffer length is never
exhausted; callers pass the buffer length plus one. -/
def componentsLoop (fuel : Nat) (b : List Nat) (acc : List Component) : List Component × Option GoErr :=
  match fuel with
  | 0 => (acc, some .panicked)
  | fuel + 1 =>
    if b.length < 2 then (acc, none)
    else
      match ParseComponent (b.drop 2) with
      | .error e => (acc, some e)
      | .ok comp =>
        let acc := acc ++ [comp]
        if (b.drop 2).length = comp.Length + 2 then (acc, none)
        else if b.length < comp.MarshalLen then (acc, some .panicked)
        else componentsLoop fuel (b.drop comp.MarshalLen) acc

/-- component.go Components.UnmarshalBinary, with the state of the receiver
at the point of a failure returned next to the error. -/
def Components.UnmarshalBinaryAux (b : List Nat) : Components × Option GoErr :=
  if b.length < 2 then ({ Tag := 0, Length := 0, Component := [] }, some .errUnexpectedEOF)
  else
    let res := componentsLoop (b.length + 1) b []
    ({ Tag := b.getD 0 0, Length := b.getD 1 0, Component := res.1 }, res.2)

/-- component.go Components.UnmarshalBinary as an error-or-value result. -/
def Components.UnmarshalBinary (b : List Nat) : Except GoErr Components :=
  match Components.UnmarshalBinaryAux b with
  | (c, none) => .ok c
  | (_, some e) => .error e

/-- component.go ParseComponents: converts an ErrUnexpectedEOF from
UnmarshalBinary into a successful result carrying the partially filled
receiver; other failures propagate. -/
def ParseComponents (b : List Nat) : Except GoErr Components :=
  match Components.UnmarshalBinaryAux b with
  | (c, none) => .ok c
  | (c, some e) => if e = .errUnexpectedEOF then .ok c else .error e

/-- tcap.go TCAP: aggregate of the three portions (each a pointer in Go,
hence an Option). -/
structure TCAP where
  Transaction : Option Transaction := none
  Dialogue : Option Dialogue := none
  Components : Option Components := none
deriving DecidableEq, Repr

/-- tcap.go TCAP.MarshalLen. -/
def TCAP.MarshalLen (t : TCAP) : Nat :=
  (match t.Components with | some p => p.MarshalLen | none => 0)
    + (match t.Dialogue with | some p => p.MarshalLen | none => 0)
    + (match t.Transaction with | some p => p.MarshalLen | none => 0)

/-- tcap.go TCAP.SetLength: finalizes the portion lengths bottom-up and
adds the byte-wrapped sizes of the components and dialogue portions to the
transaction length. -/
def TCAP.SetLength (t : TCAP) : TCAP :=
  let t := { t with Components := t.Components.map Components.SetLength }
  let t := { t with Dialogue := t.Dialogue.map Dialogue.SetLength }
  match t.Transaction with
  | none => t
  | some tx =>
    let tx := tx.SetLength
    let tx :=
      match t.Components with
      | some c => { tx with Length := (tx.Length + c.MarshalLen % 256) % 256 }
      | none => tx
    let tx :=
      match t.Dialogue with
      | some d => { tx with Length := (tx.Length + d.MarshalLen % 256) % 256 }
      | none => tx
    { t with Transaction := some tx }

/-- tcap.go NewBeginInvoke. -/
def NewBeginInvoke (otid invID opCode : Nat) (payload : List Nat) : TCAP :=
  TCAP.SetLength
    { Transaction := some (NewBegin otid [])
      Components := some (NewComponents [NewInvoke invID (-1) opCode true payload]) }

/-- tcap.go NewBeginInvokeWithDialogue. -/
def NewBeginInvokeWithDialogue (otid dlgType ctx ctxver invID opCode : Nat) (payload : List Nat) : TCAP :=
  let t := NewBeginInvoke otid invID opCode payload
  let t := { t with Dialogue := some (NewDialogue dlgType 1 (NewAARQ 1 ctx ctxver) []) }
  TCAP.SetLength t

/-- tcap.go NewContinueInvoke. -/
def NewContinueInvoke (otid dtid invID opCode : Nat) (payload : List Nat) : TCAP :=
  TCAP.SetLength
    { Transaction := some (NewContinue otid dtid [])
      Components := some (NewComponents [NewInvoke invID (-1) opCode true payload]) }

/-- tcap.go NewEndReturnResult. -/
def NewEndReturnResult (dtid invID opCode : Nat) (isLast : Bool) (payload : List Nat) : TCAP :=
  TCAP.SetLength
    { Transaction := some (NewEnd dtid [])
      Components := some (NewComponents [NewReturnResult invID opCode true isLast payload]) }

/-- tcap.go TCAP.MarshalTo: writes the transaction, dialogue and components
portions one after another. -/
def TCAP.MarshalTo (t : TCAP) (b : List Nat) : Except GoErr (List Nat) := do
  let bo : List Nat × Nat := (b, 0)
  let bo ←
    match t.Transaction with
    | none => pure bo
    | some tx => do
      let b2 ← writeSub bo.1 bo.2 tx.MarshalLen tx.MarshalTo
      pure (b2, bo.2 + tx.MarshalLen)
  let bo ←
    match t.Dialogue with
    | none => pure bo
    | some d => do
      let b2 ← writeSub bo.1 bo.2 d.MarshalLen d.MarshalTo
      pure (b2, bo.2 + d.MarshalLen)
  let bo ←
    match t.Components with
    | none => pure bo
    | some c => do
      let b2 ← writeSub bo.1 bo.2 c.MarshalLen c.MarshalTo
      pure (b2, bo.2 + c.MarshalLen)
  return bo.1

/-- tcap.go TCAP.MarshalBinary. -/
def TCAP.MarshalBinary (t : TCAP) : Except GoErr (List Nat) :=
  t.MarshalTo (List.replicate t.MarshalLen 0)

/-- The portion-splitting phase of tcap.go TCAP.UnmarshalBinary, before the
final length comparison. The result carries the aggregate together with
some parsedLength when control reaches the comparison at the end of the Go
method, and none when the method returns early (no payload behind the
transaction ids, or a dialogue with an empty trailing payload). A failed
transaction parse is a nil-pointer panic in the source because the parsed
transaction length is read before the error test. Taking a suffix beyond
the end of a payload slice is a Go slice-bounds panic. -/
def tcapAfterPortions (b : List Nat) : Except GoErr (TCAP × Option Nat) :=
  match ParseTransaction b with
  | .error _ => .error .panicked
  | .ok tx =>
    let transactionLength := tx.Length
    if tx.Payload.length = 0 then .ok ({ Transaction := some tx }, none)
    else if tx.Payload.getD 0 0 = 0x6b then
      match ParseDialogue tx.Payload with
      | .error e => .error e
      | .ok d =>
        if d.Payload.length = 0 then
          .ok ({ Transaction := some tx, Dialogue := some d }, none)
        else if tx.Payload.length < d.MarshalLen then .error .panicked
        else
          let tx := { tx with Payload := tx.Payload.drop d.MarshalLen }
          match ParseComponents d.Payload with
          | .error e => .error e
          | .ok cs =>
            if d.Payload.length < cs.MarshalLen then .error .panicked
            else
              let d := { d with Payload := d.Payload.drop cs.MarshalLen }
              .ok ({ Transaction := some tx, Dialogue := some d, Components := some cs },
                   some transactionLength)
    else if tx.Payload.getD 0 0 = 0x6c then
      match ParseComponents tx.Payload with
      | .error e => .error e
      | .ok cs =>
        if tx.Payload.length < cs.MarshalLen then .error .panicked
        else
          let tx := { tx with Payload := tx.Payload.drop cs.MarshalLen }
          .ok ({ Transaction := some tx, Components := some cs }, some transactionLength)
    else
      .ok ({ Transaction := some tx }, some transactionLength)

/-- tcap.go TCAP.UnmarshalBinary: splits the portions, then recomputes all
lengths bottom-up with SetLength and fails when the recomputed transaction
length differs from the parsed one. -/
def TCAP.UnmarshalBinary (b : List Nat) : Except GoErr TCAP :=
  match tcapAfterPortions b with
  | .error e => .error e
  | .ok (t, none) => .ok t
  | .ok (t, some transactionLength) =>
    let t := t.SetLength
    let got := match t.Transaction with | some tx => tx.Length | none => 0
    if transactionLength ≠ got then .error (.lengthMismatch got transactionLength)
    else .ok t

/-- tcap.go Parse. -/
def Parse (b : List Nat) : Except GoErr TCAP :=
  TCAP.UnmarshalBinary b

/-- tcap.go TCAP.OTID: none models the Go panic of binary.BigEndian.Uint32
on a transaction id value shorter than four bytes. -/
def TCAP.OTID (t : TCAP) : Option Nat :=
  match t.Transaction with
  | some ts =>
    match ts.OrigTransactionID with
    | some otid => if otid.Value.length < 4 then none else some (beUint32 otid.Value)
    | none => some 0
  | none => some 0

/-- tcap.go TCAP.DTID, same shape as OTID over DestTransactionID. -/
def TCAP.DTID (t : TCAP) : Option Nat :=
  match t.Transaction with
  | some ts =>
    match ts.DestTransactionID with
    | some dtid => if dtid.Value.length < 4 then none else some (beUint32 dtid.Value)
    | none => some 0
  | none => some 0

/-- The transaction length recomputed bottom-up by TCAP.SetLength, read at
the comparison point of tcap.go TCAP.UnmarshalBinary. -/
def recomputedTCAPLength (t : TCAP) : Nat :=
  match t.SetLength.Transaction with
  | some tx => tx.Length
  | none => 0

/-- The 56-byte wire image of the Begin - AARQ - Invoke test message. -/
def beginAARQInvokeBytes : List Nat :=
  [0x62, 0x36, 0x48, 0x04, 0x11, 0x11, 0x11, 0x11,
   0x6b, 0x1e, 0x28, 0x1c, 0x06, 0x07, 0x00, 0x11, 0x86, 0x05, 0x01, 0x01, 0x01, 0xa0, 0x11, 0x60,
   0x0f, 0x80, 0x02, 0x07, 0x80, 0xa1, 0x09, 0x06, 0x07, 0x04, 0x00, 0x00, 0x01, 0x00, 0x1d, 0x03,
   0x6c, 0x0e, 0xa1, 0x0c, 0x02, 0x01, 0x00, 0x02, 0x01, 0x47, 0x30, 0x04, 0xde, 0xad, 0xbe, 0xef]

/-- C1: encoding the TCAP message built from Begin with OTID 0x11111111, an
AARQ dialogue portion with application context AnyTimeInfoEnquiryContext and
context version 3, and an Invoke component with invoke id 0, local operation
code 71 and parameter bytes de ad be ef produces exactly the expected
56-byte sequence. -/
theorem c1_beginInvokeWithDialogue_encoding :
    (NewBeginInvokeWithDialogue 0x11111111 DialogueAsID AnyTimeInfoEnquiryContext 3 0 71
      [0xde, 0xad, 0xbe, 0xef]).MarshalBinary = .ok beginAARQInvokeBytes := by
  decide

/-- C7: decoding a Components region holding an Invoke followed by a
ReturnResultLast yields exactly two components whose fields come from the
correct byte ranges, the second one including the extra ReturnResult
wrapper level. -/
theorem c7_invoke_then_returnResultLast_decode :
    ParseComponents [0x6c, 0x1e,
      0xa1, 0x0c, 0x02, 0x01, 0x00, 0x02, 0x01, 0x47, 0x30, 0x04, 0xde, 0xad, 0xbe, 0xef,
      0xa2, 0x0e, 0x02, 0x01, 0x00, 0x30, 0x09, 0x02, 0x01, 0x47, 0x30, 0x04, 0xde, 0xad, 0xbe, 0xef] =
    .ok { Tag := 0x6c, Length := 0x1e
          Component :=
            [{ Typ := 0xa1, Length := 0x0c
               InvokeID := some { Tag := 0x02, Length := 1, Value := [0x00] }
               OperationCode := some { Tag := 0x02, Length := 1, Value := [0x47] }
               Parameter := some { Tag := 0x30, Length := 4, Value := [0xde, 0xad, 0xbe, 0xef] } },
             { Typ := 0xa2, Length := 0x0e
               InvokeID := some { Tag := 0x02, Length := 1, Value := [0x00] }
               ResultRetres := some { Tag := 0x30, Length := 9
                                      Value := [0x02, 0x01, 0x47, 0x30, 0x04, 0xde, 0xad, 0xbe, 0xef] }
               OperationCode := some { Tag := 0x02, Length := 1, Value := [0x47] }
               Parameter := some { Tag := 0x30, Length := 4, Value := [0xde, 0xad, 0xbe, 0xef] } }] } := by
  decide

/-- C8: for every class below 4, form below 2 and code below 32, the three
tag accessors recover exactly the packed inputs. -/
theorem c8_tag_roundtrip :
    ∀ cls : Nat, cls < 4 → ∀ form : Nat, form < 2 → ∀ code : Nat, code < 32 →
      Tag.Class (NewTag cls form code) = cls ∧ Tag.Form (NewTag cls form code) = form ∧
        Tag.Code (NewTag cls form code) = code := by
  decide

/-- Witness for C8 at class 2, form 1, code 17. -/
theorem c8_tag_roundtrip_witness :
    Tag.Class (NewTag 2 1 17) = 2 ∧ Tag.Form (NewTag 2 1 17) = 1 ∧ Tag.Code (NewTag 2 1 17) = 17 :=
  c8_tag_roundtrip 2 (by decide) 1 (by decide) 17 (by decide)

/-- C9: for all arguments, NewReject builds a component whose type tag is
the context-specific constructed tag with the Invoke code (wire byte 0xa1),
not the Reject code, while carrying the given invoke id and problem code
information elements. -/
theorem c9_newReject_uses_invoke_tag (invID problemType problemCode : Nat) (param : List Nat) :
    (NewReject invID problemType problemCode param).Typ = 0xa1 ∧
    Tag.Code (NewReject invID problemType problemCode param).Typ = Invoke ∧
    (NewReject invID problemType problemCode param).Typ ≠ NewContextSpecificConstructorTag Reject ∧
    (NewReject invID problemType problemCode param).InvokeID =
      some { Tag := NewUniversalPrimitiveTag 2, Length := 1, Value := [invID % 256] } ∧
    (NewReject invID problemType problemCode param).ProblemCode =
      some { Tag := NewContextSpecificPrimitiveTag problemType, Length := 1, Value := [problemCode] } := by
  refine ⟨rfl, ?_, ?_, rfl, rfl⟩
  · show Tag.Code 0xa1 = Invoke
    decide
  · show (0xa1 : Nat) ≠ NewContextSpecificConstructorTag Reject
    decide

/-- C10: OTID and DTID return 0, and cannot fail, whenever the transaction
portion or the corresponding transaction id IE is absent; when the IE is
present with at least four value bytes they return the big-endian 32-bit
value of its first four value bytes. -/
theorem c10_otid_dtid_accessors (t : TCAP) :
    (t.Transaction = none → t.OTID = some 0 ∧ t.DTID = some 0) ∧
    (∀ ts, t.Transaction = some ts →
      (ts.OrigTransactionID = none → t.OTID = some 0) ∧
      (ts.DestTransactionID = none → t.DTID = some 0) ∧
      (∀ ie, ts.OrigTransactionID = some ie → 4 ≤ ie.Value.length →
        t.OTID = some (beUint32 ie.Value)) ∧
      (∀ ie, ts.DestTransactionID = some ie → 4 ≤ ie.Value.length →
        t.DTID = some (beUint32 ie.Value))) := by
  constructor
  · intro h
    simp [TCAP.OTID, TCAP.DTID, h]
  · intro ts h
    refine ⟨fun h2 => ?_, fun h2 => ?_, fun ie h2 h3 => ?_, fun ie h2 h3 => ?_⟩
    · simp [TCAP.OTID, h, h2]
    · simp [TCAP.DTID, h, h2]
    · simp only [TCAP.OTID, h, h2]
      rw [if_neg (by omega)]
    · simp only [TCAP.DTID, h, h2]
      rw [if_neg (by omega)]

/-- Witness for C10 at a transaction carrying OTID 0x11111111. -/
theorem c10_otid_dtid_accessors_witness :
    TCAP.OTID ⟨some ⟨0x62, 6, some ⟨0x48, 4, [0x11, 0x11, 0x11, 0x11]⟩, none, none, []⟩, none, none⟩ =
      some (beUint32 [0x11, 0x11, 0x11, 0x11]) :=
  ((c10_otid_dtid_accessors
      ⟨some ⟨0x62, 6, some ⟨0x48, 4, [0x11, 0x11, 0x11, 0x11]⟩, none, none, []⟩, none, none⟩).2
    ⟨0x62, 6, some ⟨0x48, 4, [0x11, 0x11, 0x11, 0x11]⟩, none, none, []⟩ rfl).2.2.1
    ⟨0x48, 4, [0x11, 0x11, 0x11, 0x11]⟩ rfl (by decide)

/-- C6: on every successfully decoded transaction portion the present
optional fields are exactly those mandated by the message type: Begin only
the originating id, End only the destination id, Continue both ids, Abort
the destination id and the abort cause, Unidirectional none. -/
theorem c6_transaction_presence (b : List Nat) (t : Transaction)
    (h : ParseTransaction b = .ok t) :
    (Tag.Code t.Typ = Unidirectional →
      t.OrigTransactionID = none ∧ t.DestTransactionID = none ∧ t.PAbortCause = none) ∧
    (Tag.Code t.Typ = Begin →
      t.OrigTransactionID.isSome = true ∧ t.DestTransactionID = none ∧ t.PAbortCause = none) ∧
    (Tag.Code t.Typ = End →
      t.OrigTransactionID = none ∧ t.DestTransactionID.isSome = true ∧ t.PAbortCause = none) ∧
    (Tag.Code t.Typ = Continue →
      t.OrigTransactionID.isSome = true ∧ t.DestTransactionID.isSome = true ∧ t.PAbortCause = none) ∧
    (Tag.Code t.Typ = Abort →
      t.OrigTransactionID = none ∧ t.DestTransactionID.isSome = true ∧ t.PAbortCause.isSome = true) := by
  simp only [ParseTransaction, Transaction.UnmarshalBinary] at h
  repeat' split at h
  all_goals simp only [reduceCtorEq, Except.ok.injEq] at h
  all_goals subst h
  all_goals
    refine ⟨?_, ?_, ?_, ?_, ?_⟩ <;> intro hc <;>
      simp_all [Unidirectional, Begin, End, Continue, Abort]

/-- Witness for C6 at a decoded Unidirectional transaction. -/
theorem c6_transaction_presence_witness :
    ({ Typ := 0x61, Length := 0, Payload := [] } : Transaction).OrigTransactionID = none ∧
    ({ Typ := 0x61, Length := 0, Payload := [] } : Transaction).DestTransactionID = none ∧
    ({ Typ := 0x61, Length := 0, Payload := [] } : Transaction).PAbortCause = none :=
  (c6_transaction_presence [0x61, 0x00] { Typ := 0x61, Length := 0, Payload := [] }
    (by decide)).1 (by decide)

/-- C3: whenever the TCAP decoder reaches the final length comparison, it
fails with a LengthMismatch error exactly when the transaction length
recomputed bottom-up by SetLength disagrees with the originally parsed one,
and succeeds when they agree. -/
theorem c3_tcap_length_check (b : List Nat) (t : TCAP) (plen : Nat)
    (h : tcapAfterPortions b = .ok (t, some plen)) :
    (TCAP.UnmarshalBinary b = .error (.lengthMismatch (recomputedTCAPLength t) plen) ↔
      recomputedTCAPLength t ≠ plen) ∧
    (recomputedTCAPLength t = plen → TCAP.UnmarshalBinary b = .ok t.SetLength) := by
  have hu : TCAP.UnmarshalBinary b =
      (if plen ≠ recomputedTCAPLength t
       then .error (.lengthMismatch (recomputedTCAPLength t) plen)
       else .ok t.SetLength) := by
    unfold TCAP.UnmarshalBinary recomputedTCAPLength
    rw [h]
  rw [hu]
  by_cases hne : plen = recomputedTCAPLength t
  · rw [if_neg (not_not_intro hne)]
    exact ⟨⟨fun he => by simp at he, fun hne2 => absurd hne.symm hne2⟩, fun _ => rfl⟩
  · rw [if_pos hne]
    exact ⟨⟨fun _ => fun heq => hne heq.symm, fun _ => rfl⟩, fun heq => absurd heq.symm hne⟩

/-- Witness for C3 at a Unidirectional message with one payload byte whose
parsed and recomputed lengths agree. -/
theorem c3_tcap_length_check_witness :
    TCAP.UnmarshalBinary [0x61, 0x01, 0xff] =
      .ok (TCAP.SetLength ⟨some ⟨0x61, 1, none, none, none, [0xff]⟩, none, none⟩) :=
  (c3_tcap_length_check [0x61, 0x01, 0xff] ⟨some ⟨0x61, 1, none, none, none, [0xff]⟩, none, none⟩ 1
    (by decide)).2 (by decide)

/-- C4 counterexample: a one-byte buffer is shorter than two bytes, yet
ParseComponents returns a successful empty Components tree instead of a
truncated-input failure. -/
theorem c4_short_buffer_counterexample :
    ([0x6c] : List Nat).length < 2 ∧ ParseComponents [0x6c] = .ok ⟨0, 0, []⟩ := by
  decide

/-- C4 amended: ParseIE fails with ErrUnexpectedEOF and returns no tree on
every buffer shorter than two bytes (in fact shorter than three) and on
every buffer whose declared TLV length passes the remaining bytes;
ParseComponents, however, swallows ErrUnexpectedEOF from the components
decoder and returns the partially filled Components value with no error. -/
theorem c4_truncated_input_amended :
    (∀ b : List Nat, b.length < 2 → ParseIE b = .error .errUnexpectedEOF) ∧
    (∀ b : List Nat, b.length < (readLength b).2 + (readLength b).1 →
      ParseIE b = .error .errUnexpectedEOF) ∧
    (∀ (b : List Nat) (c : Components),
      Components.UnmarshalBinaryAux b = (c, some .errUnexpectedEOF) →
      ParseComponents b = .ok c) := by
  refine ⟨?_, ?_, ?_⟩
  · intro b hb
    unfold ParseIE IE.UnmarshalBinary
    rw [if_pos (by omega)]
  · intro b hb
    simp only [ParseIE, IE.UnmarshalBinary]
    split_ifs with h1
    · rfl
    · rfl
  · intro b c haux
    unfold ParseComponents
    rw [haux]
    simp

/-- Witness for C4 amended: a one-byte IE buffer, a three-byte IE buffer
declaring four value bytes, and a two-byte components region. -/
theorem c4_truncated_input_amended_witness :
    ParseIE [5] = .error .errUnexpectedEOF ∧
    ParseIE [0x48, 0x04, 0xde] = .error .errUnexpectedEOF ∧
    ParseComponents [0x6c, 7] = .ok ⟨0x6c, 7, []⟩ :=
  ⟨c4_truncated_input_amended.1 [5] (by decide),
   c4_truncated_input_amended.2.1 [0x48, 0x04, 0xde] (by decide),
   c4_truncated_input_amended.2.2 [0x6c, 7] ⟨0x6c, 7, []⟩ (by decide)⟩

/-- C5: the length codec. Decoding: a clear high bit is short form with the
byte itself as the length and header size 2; a set high bit with zero count
yields length 0; a positive count folds the following big-endian octets
through an accumulator narrowed to eight bits, which collapses to the final
octet, with header size 3. Encoding: a length of at most 127 is a single
short-form octet; a larger length emits 0x80 with octet count 1 followed by
the minimal one-octet big-endian image of the length minus one. -/
theorem c5_length_codec :
    (∀ b : List Nat, b.getD 1 0 < 256 →
      (b.getD 1 0 &&& 128 = 0 → readLength b = (b.getD 1 0, 2)) ∧
      (b.getD 1 0 &&& 128 ≠ 0 → b.getD 1 0 &&& 127 = 0 → readLength b = (0, 2)) ∧
      (∀ c : Nat, b.getD 1 0 &&& 128 ≠ 0 → b.getD 1 0 &&& 127 = c + 1 →
        readLength b = (255 &&& b.getD (2 + c) 0, 3))) ∧
    (∀ (b : List Nat) (len : Nat), len < 256 →
      (len ≤ 127 → writeLength b len = (store b 1 len, 2)) ∧
      (127 < len → 127 ≤ len - 1 ∧ len - 1 < 256 ∧
        writeLength b len = (store (store b 1 (128 ||| 1)) 2 (len - 1), 3))) := by
  have hmask : ∀ x : Nat, x < 256 →
      x &&& 0xff000000 = 0 ∧ x &&& 0xff0000 = 0 ∧ x &&& 0xff00 = 0 ∧ x &&& 255 = x := by
    decide
  constructor
  · intro b hb
    refine ⟨fun h0 => ?_, fun h0 h127 => ?_, fun c h0 hc => ?_⟩
    · simp only [readLength]
      rw [if_pos h0, Nat.mod_eq_of_lt hb]
    · simp only [readLength]
      rw [if_neg h0, if_pos h127]
    · have hand : 255 &&& b.getD (2 + c) 0 < 256 :=
        Nat.lt_succ_of_le Nat.and_le_left
      simp only [readLength]
      rw [if_neg h0, hc, if_neg (Nat.succ_ne_zero c)]
      rw [List.range_succ, List.foldl_append, List.foldl_cons, List.foldl_nil]
      rw [Nat.shiftLeft_eq]
      have hpow : (2 : Nat) ^ 8 = 256 := by norm_num
      rw [hpow, Nat.mul_mod_left, Nat.zero_or, Nat.mod_eq_of_lt hand]
  · intro b len hlen
    constructor
    · intro h127
      simp [writeLength, Nat.mod_eq_of_lt hlen, h127]
    · intro h127
      have h1 := (hmask (len - 1) (by omega)).1
      have h2 := (hmask (len - 1) (by omega)).2.1
      have h3 := (hmask (len - 1) (by omega)).2.2.1
      have h4 := (hmask (len - 1) (by omega)).2.2.2
      refine ⟨by omega, by omega, ?_⟩
      simp only [writeLength, Nat.mod_eq_of_lt hlen]
      rw [if_neg (by omega : ¬len ≤ 127)]
      simp [h1, h2, h3, h4, List.range_succ, List.range_zero]

/-- Witness for C5 at the short length 5, the long length 200 and a
two-octet long-form read. -/
theorem c5_length_codec_witness :
    readLength [0x30, 0x05] = (5, 2) ∧
    readLength [0x30, 0x82, 0x01, 0x05] = (255 &&& 0x05, 3) ∧
    writeLength [0, 0, 0] 5 = (store [0, 0, 0] 1 5, 2) ∧
    writeLength [0, 0, 0] 200 = (store (store [0, 0, 0] 1 (128 ||| 1)) 2 199, 3) :=
  ⟨((c5_length_codec.1 [0x30, 0x05] (by decide)).1 (by decide)),
   ((c5_length_codec.1 [0x30, 0x82, 0x01, 0x05] (by decide)).2.2 1 (by decide) (by decide)),
   ((c5_length_codec.2 [0, 0, 0] 5 (by decide)).1 (by decide)),
   ((c5_length_codec.2 [0, 0, 0] 200 (by decide)).2 (by decide)).2.2⟩

/-- C2 counterexample: the Begin - AARQ - Invoke message, a supported shape
from the test suite, encodes to its wire image, but decoding that image
fails on an out-of-range reslice of the transaction payload, so decoding
the encoding of this shape does not return the shape. -/
theorem c2_roundtrip_counterexample :
    (NewBeginInvokeWithDialogue 0x11111111 DialogueAsID AnyTimeInfoEnquiryContext 3 0 71
      [0xde, 0xad, 0xbe, 0xef]).MarshalBinary = .ok beginAARQInvokeBytes ∧
    Parse beginAARQInvokeBytes = .error .panicked := by
  decide

/-- C2 amended: on the test-suite shapes, decode of encode is the identity
and encode reproduces the wire bytes for single IEs, all five transaction
shapes, Invoke and ReturnError component sequences and TCAP aggregates
without a dialogue portion; for ReturnResult components and Dialogue
portions the decoded structure differs from the constructed one in the
wrapper Value fields that only the parser populates, and a TCAP aggregate
carrying both a dialogue and components fails to decode at all. -/
theorem c2_roundtrip_amended :
    (NewIE 0x48 [0xde, 0xad, 0xbe, 0xef]).MarshalBinary =
      .ok [0x48, 0x04, 0xde, 0xad, 0xbe, 0xef] ∧
    ParseIE [0x48, 0x04, 0xde, 0xad, 0xbe, 0xef] = .ok (NewIE 0x48 [0xde, 0xad, 0xbe, 0xef]) ∧
    (NewUnidirectional [0xca, 0xfe]).MarshalBinary = .ok [0x61, 0x02, 0xca, 0xfe] ∧
    ParseTransaction [0x61, 0x02, 0xca, 0xfe] = .ok (NewUnidirectional [0xca, 0xfe]) ∧
    (NewBegin 0xdeadbeef [0xfa, 0xce]).MarshalBinary =
      .ok [0x62, 0x08, 0x48, 0x04, 0xde, 0xad, 0xbe, 0xef, 0xfa, 0xce] ∧
    ParseTransaction [0x62, 0x08, 0x48, 0x04, 0xde, 0xad, 0xbe, 0xef, 0xfa, 0xce] =
      .ok (NewBegin 0xdeadbeef [0xfa, 0xce]) ∧
    (NewEnd 0xdeadbeef [0xfa, 0xce]).MarshalBinary =
      .ok [0x64, 0x08, 0x49, 0x04, 0xde, 0xad, 0xbe, 0xef, 0xfa, 0xce] ∧
    ParseTransaction [0x64, 0x08, 0x49, 0x04, 0xde, 0xad, 0xbe, 0xef, 0xfa, 0xce] =
      .ok (NewEnd 0xdeadbeef [0xfa, 0xce]) ∧
    (NewContinue 0xdeadbeef 0xdeadbeef [0xfa, 0xce]).MarshalBinary =
      .ok [0x65, 0x0e, 0x48, 0x04, 0xde, 0xad, 0xbe, 0xef, 0x49, 0x04, 0xde, 0xad, 0xbe, 0xef, 0xfa, 0xce] ∧
    ParseTransaction
        [0x65, 0x0e, 0x48, 0x04, 0xde, 0xad, 0xbe, 0xef, 0x49, 0x04, 0xde, 0xad, 0xbe, 0xef, 0xfa, 0xce] =
      .ok (NewContinue 0xdeadbeef 0xdeadbeef [0xfa, 0xce]) ∧
    (NewAbort 0xdeadbeef 0 [0xfa, 0xce]).MarshalBinary =
      .ok [0x67, 0x0b, 0x49, 0x04, 0xde, 0xad, 0xbe, 0xef, 0x4a, 0x01, 0x00, 0xfa, 0xce] ∧
    ParseTransaction [0x67, 0x0b, 0x49, 0x04, 0xde, 0xad, 0xbe, 0xef, 0x4a, 0x01, 0x00, 0xfa, 0xce] =
      .ok (NewAbort 0xdeadbeef 0 [0xfa, 0xce]) ∧
    (NewComponents [NewInvoke 0 0 71 true [0xde, 0xad, 0xbe, 0xef]]).MarshalBinary =
      .ok [0x6c, 0x0e, 0xa1, 0x0c, 0x02, 0x01, 0x00, 0x02, 0x01, 0x47, 0x30, 0x04, 0xde, 0xad, 0xbe, 0xef] ∧
    ParseComponents
        [0x6c, 0x0e, 0xa1, 0x0c, 0x02, 0x01, 0x00, 0x02, 0x01, 0x47, 0x30, 0x04, 0xde, 0xad, 0xbe, 0xef] =
      .ok (NewComponents [NewInvoke 0 0 71 true [0xde, 0xad, 0xbe, 0xef]]) ∧
    (NewComponents [NewReturnError 0 71 true [0xde, 0xad, 0xbe, 0xef]]).MarshalBinary =
      .ok [0x6c, 0x0e, 0xa3, 0x0c, 0x02, 0x01, 0x00, 0x02, 0x01, 0x47, 0x30, 0x04, 0xde, 0xad, 0xbe, 0xef] ∧
    ParseComponents
        [0x6c, 0x0e, 0xa3, 0x0c, 0x02, 0x01, 0x00, 0x02, 0x01, 0x47, 0x30, 0x04, 0xde, 0xad, 0xbe, 0xef] =
      .ok (NewComponents [NewReturnError 0 71 true [0xde, 0xad, 0xbe, 0xef]]) ∧
    (NewContinueInvoke 0x11111111 0x22222222 1 61
        [0x04, 0x01, 0x0f, 0x04, 0x09, 0xaa, 0x1b, 0x2e, 0x47, 0xab, 0xd9, 0x46, 0xaa, 0x11, 0x80, 0x07,
         0x91, 0x18, 0x08, 0x11, 0x11, 0x22, 0x22]).MarshalBinary =
      .ok [0x65, 0x2f, 0x48, 0x04, 0x11, 0x11, 0x11, 0x11, 0x49, 0x04, 0x22, 0x22, 0x22, 0x22,
           0x6c, 0x21, 0xa1, 0x1f, 0x02, 0x01, 0x01, 0x02, 0x01, 0x3d, 0x30, 0x17, 0x04, 0x01, 0x0f, 0x04,
           0x09, 0xaa, 0x1b, 0x2e, 0x47, 0xab, 0xd9, 0x46, 0xaa, 0x11, 0x80, 0x07, 0x91, 0x18, 0x08, 0x11,
           0x11, 0x22, 0x22] ∧
    Parse [0x65, 0x2f, 0x48, 0x04, 0x11, 0x11, 0x11, 0x11, 0x49, 0x04, 0x22, 0x22, 0x22, 0x22,
           0x6c, 0x21, 0xa1, 0x1f, 0x02, 0x01, 0x01, 0x02, 0x01, 0x3d, 0x30, 0x17, 0x04, 0x01, 0x0f, 0x04,
           0x09, 0xaa, 0x1b, 0x2e, 0x47, 0xab, 0xd9, 0x46, 0xaa, 0x11, 0x80, 0x07, 0x91, 0x18, 0x08, 0x11,
           0x11, 0x22, 0x22] =
      .ok (NewContinueInvoke 0x11111111 0x22222222 1 61
        [0x04, 0x01, 0x0f, 0x04, 0x09, 0xaa, 0x1b, 0x2e, 0x47, 0xab, 0xd9, 0x46, 0xaa, 0x11, 0x80, 0x07,
         0x91, 0x18, 0x08, 0x11, 0x11, 0x22, 0x22]) ∧
    (NewComponents [NewReturnResult 0 71 true true [0xde, 0xad, 0xbe, 0xef]]).MarshalBinary =
      .ok [0x6c, 0x10, 0xa2, 0x0e, 0x02, 0x01, 0x00, 0x30, 0x09, 0x02, 0x01, 0x47, 0x30, 0x04, 0xde, 0xad,
           0xbe, 0xef] ∧
    ParseComponents
        [0x6c, 0x10, 0xa2, 0x0e, 0x02, 0x01, 0x00, 0x30, 0x09, 0x02, 0x01, 0x47, 0x30, 0x04, 0xde, 0xad,
         0xbe, 0xef] ≠
      .ok (NewComponents [NewReturnResult 0 71 true true [0xde, 0xad, 0xbe, 0xef]]) ∧
    (NewDialogue 1 1 (NewAARQ 1 AnyTimeInfoEnquiryContext 3) [0xde, 0xad, 0xbe, 0xef]).MarshalBinary =
      .ok [0x6b, 0x22, 0x28, 0x20, 0x06, 0x07, 0x00, 0x11, 0x86, 0x05, 0x01, 0x01, 0x01, 0xa0, 0x11, 0x60,
           0x0f, 0x80, 0x02, 0x07, 0x80, 0xa1, 0x09, 0x06, 0x07, 0x04, 0x00, 0x00, 0x01, 0x00, 0x1d, 0x03,
           0xde, 0xad, 0xbe, 0xef] ∧
    ParseDialogue
        [0x6b, 0x22, 0x28, 0x20, 0x06, 0x07, 0x00, 0x11, 0x86, 0x05, 0x01, 0x01, 0x01, 0xa0, 0x11, 0x60,
         0x0f, 0x80, 0x02, 0x07, 0x80, 0xa1, 0x09, 0x06, 0x07, 0x04, 0x00, 0x00, 0x01, 0x00, 0x1d, 0x03,
         0xde, 0xad, 0xbe, 0xef] ≠
      .ok (NewDialogue 1 1 (NewAARQ 1 AnyTimeInfoEnquiryContext 3) [0xde, 0xad, 0xbe, 0xef]) := by
  decide
